import Mathlib

/-!
Shallow embedding of the OTP entry widget (`src/App.tsx`).

The component's mutable view state (`digits`, `selection`, `loading`, plus
keyboard focus on the hidden field) is modelled as an explicit state record;
each React event handler becomes a pure state transformer translated line by
line from the source.  Machine integers do not occur; JavaScript numbers used
here are small non-negative indices (modelled as `Nat` where the source
guarantees non-negativity and as `Int` for raw event payloads, which may be
arbitrary before clamping).
-/

/-- Source: `const OTP_LENGTH = 6;` -/
def OTP_LENGTH : Nat := 6

/-- Source: `type Sel = { start: number; end: number };` — stored selections are
produced by clamping with `Math.max(0, ...)`, hence non-negative. -/
structure Sel where
  start : Nat
  «end» : Nat
  deriving Repr, DecidableEq

/-- The component state: `digits`, `selection`, `loading` from the three
`useState` hooks, and `focused` tracking keyboard focus on the hidden
`TextInput` (`inputRef.current?.focus()` / `Keyboard.dismiss()`). -/
structure AppState where
  digits : List String
  selection : Sel
  loading : Bool
  focused : Bool
  deriving Repr, DecidableEq

/-- Initial state: `useState(Array(OTP_LENGTH).fill(""))`,
`useState({ start: 0, end: 0 })`, `useState(false)`. -/
def initState : AppState :=
  { digits := List.replicate OTP_LENGTH ""
    selection := ⟨0, 0⟩
    loading := false
    focused := false }

/-- Source: `const value = digits.join("")` (join with empty separator is plain
concatenation). -/
def value (digits : List String) : String :=
  String.join digits

/-- Source: `const isComplete = value.length === OTP_LENGTH && !digits.includes("");` -/
def isComplete (digits : List String) : Bool :=
  (value digits).length == OTP_LENGTH && !(digits.contains "")

/-- Source: `Math.max(0, Math.min(OTP_LENGTH, x))` applied to a raw JavaScript
number, yielding an index in `[0, 6]`. -/
def clampIdx (x : Int) : Nat :=
  (max 0 (min (OTP_LENGTH : Int) x)).toNat

/-- Source: `digits[i]` as read in `focusInput`: out-of-bounds access yields
`undefined`, which is falsy exactly like the empty string. -/
def digitAt (digits : List String) (i : Nat) : String :=
  digits.getD i ""

/-- Source: `const sanitize = (raw) => raw.replace(/\D/g, "").slice(0, 1);` —
strip non-digits, keep at most the first remaining character. -/
def sanitize (raw : String) : String :=
  String.mk ((raw.data.filter Char.isDigit).take 1)

/-- Source: `focusInput(pos, selectOne)` with a numeric `pos`: focuses the hidden
field, clamps `pos` to `[0, OTP_LENGTH]`, then either selects the single
slot (when `selectOne` and the slot is non-empty) or sets a collapsed
caret.  No `loading` guard exists in the source. -/
def focusInput (st : AppState) (pos : Int) (selectOne : Bool) : AppState :=
  let clamped := clampIdx pos
  if selectOne && !(digitAt st.digits clamped == "") then
    { st with focused := true, selection := ⟨clamped, clamped + 1⟩ }
  else
    { st with focused := true, selection := ⟨clamped, clamped⟩ }

/-- Source: `focusInput()` with no position argument: only focuses, leaving the
selection untouched. -/
def focusInputNoPos (st : AppState) : AppState :=
  { st with focused := true }

/-- Source: `handleSelectionChange`: ignored while loading; otherwise clamps both
raw endpoints independently to `[0, OTP_LENGTH]` and stores them. -/
def handleSelectionChange (st : AppState) (rawStart rawEnd : Int) : AppState :=
  if st.loading then st
  else { st with selection := ⟨clampIdx rawStart, clampIdx rawEnd⟩ }

/-- Source: `handleChangeText(nextText)`: ignored while loading; sanitizes, and when
the result is non-empty and `selection.start < OTP_LENGTH` writes it at
`selection.start` and collapses the caret to `min(start + 1, OTP_LENGTH - 1)`. -/
def handleChangeText (st : AppState) (nextText : String) : AppState :=
  if st.loading then st
  else
    let clean := sanitize nextText
    if !(clean == "") && st.selection.start < OTP_LENGTH then
      let updated := st.digits.set st.selection.start clean
      let nextPos := min (st.selection.start + 1) (OTP_LENGTH - 1)
      { st with digits := updated, selection := ⟨nextPos, nextPos⟩ }
    else st

/-- Source: `handleKeyPress(e)`: ignored while loading; on the `"Backspace"` key,
when `0 ≤ selection.start < OTP_LENGTH` (the lower bound is automatic for
`Nat`), clears the slot at `selection.start`; the selection is untouched. -/
def handleKeyPress (st : AppState) (key : String) : AppState :=
  if st.loading then st
  else if key == "Backspace" then
    if st.selection.start < OTP_LENGTH then
      { st with digits := st.digits.set st.selection.start "" }
    else st
  else st

/-- Source: `handleBoxPress(index)`: ignored while loading; otherwise
`focusInput(index, true)`. -/
def handleBoxPress (st : AppState) (index : Nat) : AppState :=
  if st.loading then st
  else focusInput st (index : Int) true

/-- The row container's `onPress={() => focusInput(selection.start)}`:
`selectOne` is `undefined` (falsy).  There is no `loading` guard. -/
def rowPress (st : AppState) : AppState :=
  focusInput st (st.selection.start : Int) false

/-- The user-visible terminal notifications raised from `handleSubmit`:
`alert("Submitted code: ...")` on success, `alert("Submission failed. Please
try again.")` on failure. -/
inductive Notice where
  | success (code : String)
  | failure
  deriving Repr, DecidableEq

/-- The synchronous prefix of `handleSubmit`, up to the `await`:
`setLoading(true); Keyboard.dismiss();`. -/
def startSubmit (st : AppState) : AppState :=
  { st with loading := true, focused := false }

/-- The continuation of `handleSubmit` after the awaited delay resolves or
rejects, including the `finally` block (`setLoading(false)`): on success the
alert shows and the digits and selection are reset right there in the same
continuation; on failure only the alert shows.  Returns the new state and
the notification raised. -/
def resolveStep (st : AppState) (ok : Bool) : AppState × Notice :=
  if ok then
    ({ st with digits := List.replicate OTP_LENGTH ""
               selection := ⟨0, 0⟩
               loading := false },
     Notice.success (value st.digits))
  else
    ({ st with loading := false }, Notice.failure)

/-- The callback scheduled by `setTimeout(..., 50)` in the `finally` block:
refocus the hidden field and reset the selection to `(0, 0)`. -/
def settleStep (st : AppState) : AppState :=
  { st with focused := true, selection := ⟨0, 0⟩ }

/-- Source: the `useEffect` auto-submit trigger:
`if (isComplete && !loading) handleSubmit();` — the synchronous part of
`handleSubmit` runs in the same update cycle. -/
def autoSubmitEffect (st : AppState) : AppState :=
  if isComplete st.digits && !st.loading then startSubmit st else st

/-- A slot is well-formed when it is empty or a single decimal digit. -/
def slotOk (s : String) : Bool :=
  s == "" || (s.length == 1 && s.data.all Char.isDigit)

/-- The code-buffer invariant: exactly `OTP_LENGTH` slots, each empty or a
single digit. -/
def bufferInv (digits : List String) : Prop :=
  digits.length = OTP_LENGTH ∧ ∀ s ∈ digits, slotOk s = true

/-- The selection invariant claimed by the spec:
`0 ≤ start ≤ end ≤ OTP_LENGTH` (the lower bound is automatic for `Nat`). -/
def selInv (sel : Sel) : Prop :=
  sel.start ≤ sel.«end» ∧ sel.«end» ≤ OTP_LENGTH

/-- The weaker per-endpoint bound the code actually enforces on selection
updates: both endpoints lie in `[0, OTP_LENGTH]`. -/
def selBounds (sel : Sel) : Prop :=
  sel.start ≤ OTP_LENGTH ∧ sel.«end» ≤ OTP_LENGTH

/-! ## Helper lemmas -/

/-- Length of a joined list of strings is the sum of the lengths. -/
theorem length_join_strings (l : List String) :
    (String.join l).length = (l.map String.length).sum := by
  rw [String.join_eq]
  show (List.map String.data l).flatten.length = _
  rw [List.length_flatten, List.map_map]
  exact congrArg List.sum (List.map_congr_left (fun s _ => rfl))

/-- Sanitizing always yields a well-formed slot value. -/
theorem slotOk_sanitize (raw : String) : slotOk (sanitize raw) = true := by
  unfold sanitize slotOk
  rcases h : raw.data.filter Char.isDigit with _ | ⟨c, t⟩
  · decide
  · have hmem : c ∈ raw.data.filter Char.isDigit := by
      rw [h]; exact List.mem_cons_self c t
    have hc : c.isDigit = true := (List.mem_filter.mp hmem).2
    simp [hc]

/-- Sanitizing yields the empty string or a single digit character. -/
theorem sanitize_eq_empty_or_digit (raw : String) :
    sanitize raw = "" ∨ ∃ c, Char.isDigit c = true ∧ sanitize raw = String.mk [c] := by
  unfold sanitize
  rcases h : raw.data.filter Char.isDigit with _ | ⟨c, t⟩
  · left; rfl
  · right
    have hmem : c ∈ raw.data.filter Char.isDigit := by
      rw [h]; exact List.mem_cons_self c t
    exact ⟨c, (List.mem_filter.mp hmem).2, rfl⟩

/-- Clamping lands in `[0, OTP_LENGTH]`. -/
theorem clampIdx_le (x : Int) : clampIdx x ≤ OTP_LENGTH := by
  unfold clampIdx OTP_LENGTH
  omega

/-- Clamping is monotone, so ordered raw endpoints stay ordered. -/
theorem clampIdx_mono {x y : Int} (h : x ≤ y) : clampIdx x ≤ clampIdx y := by
  unfold clampIdx OTP_LENGTH
  omega

/-- Clamping a non-negative index is truncation at `OTP_LENGTH`. -/
theorem clampIdx_coe (n : Nat) : clampIdx (n : Int) = min n OTP_LENGTH := by
  unfold clampIdx OTP_LENGTH
  omega

/-- Writing a well-formed slot value preserves the buffer invariant. -/
theorem bufferInv_set {d : List String} {i : Nat} {s : String}
    (hd : bufferInv d) (hs : slotOk s = true) : bufferInv (d.set i s) := by
  refine ⟨by simpa using hd.1, ?_⟩
  intro x hx
  rcases List.mem_or_eq_of_mem_set hx with h | rfl
  · exact hd.2 x h
  · exact hs

/-- A non-empty well-formed slot holds exactly one character. -/
theorem slot_length_one {s : String} (h : ¬ s = "") (h2 : slotOk s = true) :
    s.length = 1 := by
  simp [slotOk, h] at h2
  exact h2.1

/-- A length-6 buffer of well-formed, non-empty slots is complete. -/
theorem isComplete_of_full {d : List String} (hlen : d.length = OTP_LENGTH)
    (hok : ∀ s ∈ d, slotOk s = true) (hne : ∀ s ∈ d, ¬ s = "") :
    isComplete d = true := by
  unfold isComplete
  have h1 : (value d).length = OTP_LENGTH := by
    unfold value
    rw [length_join_strings]
    have hmap : d.map String.length = d.map (fun _ => 1) :=
      List.map_congr_left (fun s hs => slot_length_one (hne s hs) (hok s hs))
    rw [hmap]
    simp [hlen]
  have h2 : d.contains "" = false := by
    have hnm : "" ∉ d := fun hmem => hne "" hmem rfl
    simp [List.elem_eq_mem, hnm]
  rw [h1, h2]
  decide

/-! ## Claim theorems -/

/-- C5: in the Idle state, `onTextChanged(raw)` computes `clean = sanitize raw`
(strip non-digits, keep at most the first remaining character, so the result
is empty or a single digit); when `clean` is non-empty and
`selection.start < 6` it writes `clean` at `selection.start` and collapses the
selection to `min(start + 1, 5)`; when `clean` is empty the state is
unchanged; in particular a single non-digit character never mutates the
buffer. -/
theorem text_change_behavior :
    (∀ st raw, st.loading = false → ¬ sanitize raw = "" →
        st.selection.start < OTP_LENGTH →
        handleChangeText st raw =
          { st with
              digits := st.digits.set st.selection.start (sanitize raw)
              selection := ⟨min (st.selection.start + 1) (OTP_LENGTH - 1),
                            min (st.selection.start + 1) (OTP_LENGTH - 1)⟩ }) ∧
    (∀ st raw, st.loading = false → sanitize raw = "" →
        handleChangeText st raw = st) ∧
    (∀ raw, sanitize raw = "" ∨
        ∃ c, Char.isDigit c = true ∧ sanitize raw = String.mk [c]) ∧
    (∀ st c, st.loading = false → Char.isDigit c = false →
        (handleChangeText st (String.mk [c])).digits = st.digits) := by
  refine ⟨?_, ?_, sanitize_eq_empty_or_digit, ?_⟩
  · intro st raw hl hne hlt
    unfold handleChangeText
    simp [hl, hne, hlt]
  · intro st raw hl he
    unfold handleChangeText
    simp [hl, he]
  · intro st c hl hc
    have he : sanitize (String.mk [c]) = "" := by
      unfold sanitize
      simp [hc]
    unfold handleChangeText
    simp [hl, he]

/-- C5 witness at a concrete input. -/
theorem text_change_behavior_witness :
    handleChangeText initState "7" =
      { initState with
          digits := (List.replicate OTP_LENGTH "").set 0 (sanitize "7")
          selection := ⟨1, 1⟩ } := by
  have h := text_change_behavior.1 initState "7" rfl (by decide) (by decide)
  simpa using h

/-- C6: in the Idle state with the caret at an in-range index, Backspace sets
the slot at `selection.start` to `""`, leaves every other slot and the
buffer length unchanged, and leaves the selection unchanged. -/
theorem backspace_clears_only_slot (st : AppState) (hl : st.loading = false)
    (hlen : st.digits.length = OTP_LENGTH)
    (hs : st.selection.start < OTP_LENGTH) :
    ((handleKeyPress st "Backspace").digits)[st.selection.start]? = some "" ∧
    (∀ j, ¬ j = st.selection.start →
        ((handleKeyPress st "Backspace").digits)[j]? = st.digits[j]?) ∧
    (handleKeyPress st "Backspace").digits.length = st.digits.length ∧
    (handleKeyPress st "Backspace").selection = st.selection := by
  have hd : (handleKeyPress st "Backspace").digits =
      st.digits.set st.selection.start "" := by
    unfold handleKeyPress
    simp [hl, hs]
  have hsel : (handleKeyPress st "Backspace").selection = st.selection := by
    unfold handleKeyPress
    simp [hl, hs]
  refine ⟨?_, ?_, ?_, hsel⟩
  · rw [hd]
    exact List.getElem?_set_eq_of_lt "" (by rw [hlen]; exact hs)
  · intro j hj
    rw [hd]
    exact List.getElem?_set_ne (fun h => hj h.symm)
  · rw [hd]; simp

/-- C6 witness at a concrete input. -/
theorem backspace_clears_only_slot_witness :
    ((handleKeyPress
        { initState with
            digits := ["1", "2", "3", "", "", ""]
            selection := ⟨2, 2⟩ } "Backspace").digits)[2]? = some "" := by
  exact (backspace_clears_only_slot
    { initState with digits := ["1", "2", "3", "", "", ""], selection := ⟨2, 2⟩ }
    rfl rfl (by decide)).1

/-- C10: whenever `selection.start ≥ 6`, the guarded writes in Backspace and
text-change handling are skipped, so both handlers return the state
unchanged for every input — the out-of-range write is unreachable. -/
theorem no_out_of_range_write (st : AppState)
    (h : OTP_LENGTH ≤ st.selection.start) :
    (∀ raw, handleChangeText st raw = st) ∧
    (∀ key, handleKeyPress st key = st) := by
  have hns : ¬ st.selection.start < OTP_LENGTH := Nat.not_lt.mpr h
  constructor
  · intro raw
    unfold handleChangeText
    split
    · rfl
    · simp [hns]
  · intro key
    unfold handleKeyPress
    split
    · rfl
    · split
      · simp [hns]
      · rfl

/-- C10 witness at a concrete input. -/
theorem no_out_of_range_write_witness :
    handleChangeText { initState with selection := ⟨6, 6⟩ } "5" =
      { initState with selection := ⟨6, 6⟩ } ∧
    handleKeyPress { initState with selection := ⟨6, 6⟩ } "Backspace" =
      { initState with selection := ⟨6, 6⟩ } :=
  ⟨(no_out_of_range_write { initState with selection := ⟨6, 6⟩ }
      (by decide)).1 "5",
   (no_out_of_range_write { initState with selection := ⟨6, 6⟩ }
      (by decide)).2 "Backspace"⟩

/-- C9: in the Idle state, tapping box `i` (for `i < 6`, buffer of length 6)
sets the selection to the overwrite span `(i, i + 1)` when slot `i` is
non-empty and to the collapsed caret `(i, i)` when slot `i` is empty. -/
theorem box_tap_selection (st : AppState) (i : Nat) (hl : st.loading = false)
    (hi : i < OTP_LENGTH) :
    (digitAt st.digits i = "" →
        (handleBoxPress st i).selection = ⟨i, i⟩) ∧
    (¬ digitAt st.digits i = "" →
        (handleBoxPress st i).selection = ⟨i, i + 1⟩) := by
  have hclamp : clampIdx (i : Int) = i := by
    rw [clampIdx_coe]
    exact Nat.min_eq_left (Nat.le_of_lt hi)
  constructor
  · intro he
    unfold handleBoxPress focusInput
    simp [hl, hclamp, he]
  · intro hne
    unfold handleBoxPress focusInput
    simp [hl, hclamp, hne]

/-- C9 witness at a concrete input. -/
theorem box_tap_selection_witness :
    (handleBoxPress { initState with digits := ["1", "", "", "", "", ""] }
        0).selection = ⟨0, 1⟩ ∧
    (handleBoxPress { initState with digits := ["1", "", "", "", "", ""] }
        1).selection = ⟨1, 1⟩ :=
  ⟨(box_tap_selection { initState with digits := ["1", "", "", "", "", ""] }
      0 rfl (by decide)).2 (by decide),
   (box_tap_selection { initState with digits := ["1", "", "", "", "", ""] }
      1 rfl (by decide)).1 (by decide)⟩

/-- C7: the buffer invariant — exactly 6 slots, each empty or one digit —
holds initially and is preserved by every operation of the component; no
operation resizes the buffer. -/
theorem buffer_invariant :
    bufferInv initState.digits ∧
    (∀ st raw, bufferInv st.digits →
        bufferInv (handleChangeText st raw).digits) ∧
    (∀ st key, bufferInv st.digits →
        bufferInv (handleKeyPress st key).digits) ∧
    (∀ st rs re, bufferInv st.digits →
        bufferInv (handleSelectionChange st rs re).digits) ∧
    (∀ st pos so, bufferInv st.digits →
        bufferInv (focusInput st pos so).digits) ∧
    (∀ st i, bufferInv st.digits → bufferInv (handleBoxPress st i).digits) ∧
    (∀ st, bufferInv st.digits → bufferInv (rowPress st).digits) ∧
    (∀ st, bufferInv st.digits → bufferInv (startSubmit st).digits) ∧
    (∀ st ok, bufferInv st.digits → bufferInv (resolveStep st ok).1.digits) ∧
    (∀ st, bufferInv st.digits → bufferInv (settleStep st).digits) ∧
    (∀ st, bufferInv st.digits → bufferInv (autoSubmitEffect st).digits) := by
  have hrep : bufferInv (List.replicate OTP_LENGTH "") := by
    constructor
    · simp
    · intro s hs
      rw [List.eq_of_mem_replicate hs]
      decide
  refine ⟨hrep, ?_, ?_, ?_, ?_, ?_, ?_, ?_, ?_, ?_, ?_⟩
  · intro st raw h
    unfold handleChangeText
    dsimp only
    split
    · exact h
    · split
      · exact bufferInv_set h (slotOk_sanitize raw)
      · exact h
  · intro st key h
    unfold handleKeyPress
    split
    · exact h
    · split
      · split
        · exact bufferInv_set h (by decide)
        · exact h
      · exact h
  · intro st rs re h
    unfold handleSelectionChange
    split
    · exact h
    · exact h
  · intro st pos so h
    unfold focusInput
    dsimp only
    split
    · exact h
    · exact h
  · intro st i h
    unfold handleBoxPress focusInput
    split
    · exact h
    · dsimp only
      split
      · exact h
      · exact h
  · intro st h
    unfold rowPress focusInput
    dsimp only
    split
    · exact h
    · exact h
  · intro st h
    exact h
  · intro st ok h
    unfold resolveStep
    split
    · exact hrep
    · exact h
  · intro st h
    exact h
  · intro st h
    unfold autoSubmitEffect
    split
    · exact h
    · exact h

/-- C7 witness at a concrete input. -/
theorem buffer_invariant_witness :
    bufferInv (handleChangeText initState "a1b2").digits :=
  buffer_invariant.2.1 initState "a1b2" buffer_invariant.1

/-- Focusing with any raw position yields an ordered, in-range selection,
provided the buffer has its fixed length. -/
theorem focusInput_selInv (st : AppState) (pos : Int) (so : Bool)
    (hlen : st.digits.length = OTP_LENGTH) :
    selInv (focusInput st pos so).selection := by
  unfold focusInput
  dsimp only
  split
  · rename_i hcond
    have hne : ¬ digitAt st.digits (clampIdx pos) = "" := by
      intro he
      simp [he] at hcond
    have hlt : clampIdx pos < OTP_LENGTH := by
      by_contra hge
      have hle : OTP_LENGTH ≤ clampIdx pos := Nat.le_of_not_lt hge
      have hnone : st.digits[clampIdx pos]? = none :=
        List.getElem?_eq_none (by rw [hlen]; exact hle)
      have hdef : digitAt st.digits (clampIdx pos) = "" := by
        unfold digitAt
        simp [List.getD, hnone]
      exact hne hdef
    exact ⟨Nat.le_succ _, hlt⟩
  · exact ⟨le_refl _, clampIdx_le pos⟩

/-- C2 counterexample: the raw selection-change event `(5, 2)` is stored
unreordered, so the stored selection violates `start ≤ end`. -/
theorem selection_order_cex :
    (handleSelectionChange initState 5 2).selection = ⟨5, 2⟩ ∧
    ¬ (handleSelectionChange initState 5 2).selection.start ≤
        (handleSelectionChange initState 5 2).selection.«end» := by
  decide

/-- C2 (amended): every selection update clamps both endpoints into
`[0, 6]`; every update other than a raw selection change also yields
`start ≤ end`, and a selection-change event whose raw endpoints are ordered
(`rawStart ≤ rawEnd`) stores an ordered selection — the handler clamps each
endpoint independently and does not itself enforce the ordering, so an
unordered raw event can be stored unordered. -/
theorem selection_clamped_amended :
    (∀ st rs re, st.loading = false →
        selBounds (handleSelectionChange st rs re).selection ∧
        (rs ≤ re → selInv (handleSelectionChange st rs re).selection)) ∧
    (∀ st pos so, st.digits.length = OTP_LENGTH →
        selInv (focusInput st pos so).selection) ∧
    (∀ st i, st.digits.length = OTP_LENGTH → selInv st.selection →
        selInv (handleBoxPress st i).selection) ∧
    (∀ st, st.digits.length = OTP_LENGTH → selInv st.selection →
        selInv (rowPress st).selection) ∧
    (∀ st raw, selInv st.selection →
        selInv (handleChangeText st raw).selection) ∧
    (∀ st key, selInv st.selection →
        selInv (handleKeyPress st key).selection) ∧
    (∀ st, selInv st.selection → selInv (startSubmit st).selection) ∧
    (∀ st ok, selInv st.selection → selInv (resolveStep st ok).1.selection) ∧
    (∀ st, selInv (settleStep st).selection) ∧
    (∀ st, selInv st.selection → selInv (autoSubmitEffect st).selection) ∧
    selInv initState.selection := by
  refine ⟨?_, fun st pos so h => focusInput_selInv st pos so h,
    ?_, ?_, ?_, ?_, fun st h => h, ?_, fun st => ⟨le_refl 0, Nat.zero_le _⟩,
    ?_, ⟨le_refl 0, Nat.zero_le _⟩⟩
  · intro st rs re hl
    have hsel : (handleSelectionChange st rs re).selection =
        ⟨clampIdx rs, clampIdx re⟩ := by
      unfold handleSelectionChange
      simp [hl]
    rw [hsel]
    exact ⟨⟨clampIdx_le rs, clampIdx_le re⟩,
      fun hle => ⟨clampIdx_mono hle, clampIdx_le re⟩⟩
  · intro st i hlen h
    unfold handleBoxPress
    split
    · exact h
    · exact focusInput_selInv st i true hlen
  · intro st hlen h
    exact focusInput_selInv st st.selection.start false hlen
  · intro st raw h
    unfold handleChangeText
    dsimp only
    split
    · exact h
    · split
      · exact ⟨le_refl _, le_trans (Nat.min_le_right _ _) (by decide)⟩
      · exact h
  · intro st key h
    unfold handleKeyPress
    split
    · exact h
    · split
      · split
        · exact h
        · exact h
      · exact h
  · intro st ok h
    unfold resolveStep
    split
    · exact ⟨le_refl 0, Nat.zero_le _⟩
    · exact h
  · intro st h
    unfold autoSubmitEffect
    split
    · exact h
    · exact h

/-- C2 witness at concrete inputs. -/
theorem selection_clamped_amended_witness :
    selBounds (handleSelectionChange initState 9 (-3)).selection ∧
    selInv (handleSelectionChange initState 1 4).selection :=
  ⟨(selection_clamped_amended.1 initState 9 (-3) rfl).1,
   (selection_clamped_amended.1 initState 1 4 rfl).2 (by decide)⟩

/-- A reachable Submitting state with a non-collapsed selection: type "1" at
index 0, tap filled box 0 (selection becomes `(0, 1)`), then press the
enabled Submit button (the buffer is incomplete, so the button is active). -/
def stRow : AppState :=
  { digits := ["1", "", "", "", "", ""]
    selection := ⟨0, 1⟩
    loading := true
    focused := false }

/-- C3 counterexample: while Submitting, tapping the row outside any box
(`onPress={() => focusInput(selection.start)}` has no loading guard) changes
the selection from `(0, 1)` to the collapsed `(0, 0)`. -/
theorem submitting_row_tap_cex :
    stRow.loading = true ∧
    ¬ (rowPress stRow).selection = stRow.selection := by
  decide

/-- C3 (amended): while Submitting, `onTextChanged`, `onBackspace`,
`onSelectionChanged`, and box taps are exact no-ops on the whole state; the
row tap outside any box, however, bypasses the loading guard: it leaves the
buffer unchanged but collapses the selection to
`(min(start, 6), min(start, 6))`, which changes the selection whenever it was
not already collapsed. -/
theorem submitting_ops_amended :
    (∀ st raw, st.loading = true → handleChangeText st raw = st) ∧
    (∀ st key, st.loading = true → handleKeyPress st key = st) ∧
    (∀ st rs re, st.loading = true → handleSelectionChange st rs re = st) ∧
    (∀ st i, st.loading = true → handleBoxPress st i = st) ∧
    (∀ st, st.loading = true →
        (rowPress st).digits = st.digits ∧
        (rowPress st).selection =
          ⟨min st.selection.start OTP_LENGTH,
           min st.selection.start OTP_LENGTH⟩) := by
  refine ⟨?_, ?_, ?_, ?_, ?_⟩
  · intro st raw hl
    unfold handleChangeText
    simp [hl]
  · intro st key hl
    unfold handleKeyPress
    simp [hl]
  · intro st rs re hl
    unfold handleSelectionChange
    simp [hl]
  · intro st i hl
    unfold handleBoxPress
    simp [hl]
  · intro st hl
    have hsel : (rowPress st).selection =
        ⟨clampIdx st.selection.start, clampIdx st.selection.start⟩ := by
      unfold rowPress focusInput
      simp
    refine ⟨rfl, ?_⟩
    rw [hsel, clampIdx_coe]

/-- C3 witness at a concrete input. -/
theorem submitting_ops_amended_witness :
    handleChangeText stRow "9" = stRow ∧
    handleKeyPress stRow "Backspace" = stRow ∧
    handleBoxPress stRow 3 = stRow ∧
    (rowPress stRow).digits = stRow.digits ∧
    (rowPress stRow).selection = ⟨0, 0⟩ :=
  ⟨submitting_ops_amended.1 stRow "9" rfl,
   submitting_ops_amended.2.1 stRow "Backspace" rfl,
   submitting_ops_amended.2.2.2.1 stRow 3 rfl,
   (submitting_ops_amended.2.2.2.2 stRow rfl).1,
   (submitting_ops_amended.2.2.2.2 stRow rfl).2⟩

/-- C8: whenever the buffer is well-formed with all six slots non-empty
(`isComplete` holds) and the component is not already Submitting, the
auto-submit effect enters the Submitting state in the same update cycle
(and dismisses the keyboard); once Submitting, the effect never fires
again, so it cannot enter Submitting twice for the same completion. -/
theorem auto_submit_on_complete :
    (∀ st, bufferInv st.digits → (∀ s ∈ st.digits, ¬ s = "") →
        st.loading = false →
        (autoSubmitEffect st).loading = true ∧
        (autoSubmitEffect st).digits = st.digits ∧
        (autoSubmitEffect st).focused = false) ∧
    (∀ st, st.loading = true → autoSubmitEffect st = st) := by
  constructor
  · intro st hinv hne hl
    have hc : isComplete st.digits = true := isComplete_of_full hinv.1 hinv.2 hne
    unfold autoSubmitEffect startSubmit
    simp [hc, hl]
  · intro st hl
    unfold autoSubmitEffect
    simp [hl]

/-- The complete buffer used as the concrete submission scenario. -/
def fullDigits : List String := ["1", "2", "3", "4", "5", "6"]

/-- The state right after the sixth digit is typed: every slot filled,
caret collapsed at `min(5 + 1, 5) = 5`. -/
def stFull : AppState :=
  { digits := fullDigits
    selection := ⟨5, 5⟩
    loading := false
    focused := true }

/-- C8 witness at a concrete input. -/
theorem auto_submit_on_complete_witness :
    (autoSubmitEffect stFull).loading = true :=
  ((auto_submit_on_complete.1 stFull ⟨rfl, by decide⟩ (by decide) rfl)).1

/-- The whole failure path of `handleSubmit`: the synchronous prefix, the
rejection continuation (`catch` plus `finally`), then the scheduled 50 ms
callback. -/
def failurePath (st : AppState) : AppState :=
  settleStep (resolveStep (startSubmit st) false).1

/-- C1 (code bug): on the failure path the `catch` block only raises the
failure notification — the buffer reset lives inside the `try` block after
the resolution point, so the error branch never clears the digits.  The
selection reset and refocus do happen (in the `finally` timeout), the
failure notification is distinct from every success notification, but the
buffer keeps its full contents — and since the buffer stays complete while
`loading` drops back to false, the auto-submit effect immediately fires
again, contradicting the spec's "failure is not retryable in place". -/
theorem submit_failure_keeps_buffer :
    (∀ st, (failurePath st).digits = st.digits) ∧
    (failurePath stFull).digits = fullDigits ∧
    ¬ (failurePath stFull).digits = List.replicate OTP_LENGTH "" ∧
    (failurePath stFull).selection = ⟨0, 0⟩ ∧
    (failurePath stFull).focused = true ∧
    (failurePath stFull).loading = false ∧
    (resolveStep (startSubmit stFull) false).2 = Notice.failure ∧
    ¬ Notice.failure = Notice.success (value fullDigits) ∧
    (autoSubmitEffect (failurePath stFull)).loading = true := by
  refine ⟨fun st => rfl, rfl, by decide, rfl, rfl, rfl, rfl, by decide, by decide⟩

/-- C4 (code bug): when a complete submission resolves successfully, the
resolution continuation itself already clears all six slots and resets the
selection — in the very same step that raises the success notification; the
only scheduled follow-up (the 50 ms `finally` timeout) never touches the
digits.  No delayed form clear and no intermediate success-indicator state
exist in the code. -/
theorem success_reset_at_resolution :
    ((resolveStep (startSubmit stFull) true).1).digits =
        List.replicate OTP_LENGTH "" ∧
    ((resolveStep (startSubmit stFull) true).1).selection = ⟨0, 0⟩ ∧
    (resolveStep (startSubmit stFull) true).2 =
        Notice.success (value fullDigits) ∧
    (∀ st, (settleStep st).digits = st.digits) := by
  exact ⟨rfl, rfl, rfl, fun st => rfl⟩
